import Mathlib

/-!
Verification development for the Wikid MediaWiki session engine.

The repository carries two implementations of the engine:

* `src/lib/Wikid.js` — the shipped class (array-valued cookie store,
  `csrfActions` list, token cache, symbol-based login-check override).
  It is embedded below in namespace `Wikid`.
* a second, Map-based `Wikid` class found in an unnamed bundle file of the
  repository (cookie map with deletion semantics, `notCrsfActions` set,
  explicit tokenless handling of the `login` action).  It is embedded in
  namespace `WikidB`.

The embedding is a direct shallow translation: JavaScript exceptions become
`Except` values, the mutable private fields become an explicit state record,
`fetch` becomes a transport oracle that may depend on the full list of
previously issued requests, and JS `Symbol` identity becomes a freshness
counter.  URL parsing is abstracted: a request is identified to the transport
by its method, path, query parameters, form body and cookie header.
Binary form-data parts (Blob / FileObject) are outside the modelled payloads;
payload values are strings, matching the `String(v)` coercion the code
applies to them.
-/

/-- Minimal JSON values as consumed by the engine: `null`, strings and
objects.  This is the shape space the engine inspects (`login.result`,
`query.tokens.<key>`); other JSON forms never influence its control flow
beyond their truthiness, which `obj` already exercises. -/
inductive Jx where
  | null : Jx
  | str : String → Jx
  | obj : List (String × Jx) → Jx

/-- Optional-chaining field access, `v?.k`: defined (`some`) only when the
value is an object carrying the field. -/
def jxGet? (v : Option Jx) (k : String) : Option Jx :=
  match v with
  | some (Jx.obj fs) => (fs.find? (fun p => p.1 = k)).map (fun p => p.2)
  | _ => none

/-- JavaScript truthiness of a JSON value. -/
def jxTruthy : Jx → Bool
  | Jx.null => false
  | Jx.str s => s ≠ ""
  | Jx.obj _ => true

/-- Truthiness of a possibly-undefined JSON value (`!!v`). -/
def jxTruthyOpt (v : Option Jx) : Bool :=
  match v with
  | none => false
  | some j => jxTruthy j

/-- JavaScript strict equality `v === s` between a possibly-undefined JSON
value and a string literal. -/
def jxIsStr (v : Option Jx) (s : String) : Bool :=
  match v with
  | some (Jx.str t) => t = s
  | _ => false

/-- JavaScript `String(v)` coercion of a JSON value. -/
def jxToStr : Jx → String
  | Jx.null => "null"
  | Jx.str s => s
  | Jx.obj _ => "[object Object]"

/-- JSON.stringify on the modelled values (object braces written via
escapes). -/
def jxStringify : Jx → String
  | Jx.null => "null"
  | Jx.str s => "\"" ++ s ++ "\""
  | Jx.obj fs => "\x7b" ++ String.intercalate "," (jxFields fs) ++ "\x7d"
where
  /-- Renders the field list of an object. -/
  jxFields : List (String × Jx) → List String
    | [] => []
    | (k, v) :: rest => ("\"" ++ k ++ "\":" ++ jxStringify v) :: jxFields rest

/-- JSON.stringify where the argument may be `undefined`. -/
def jxStringifyOpt (v : Option Jx) : String :=
  match v with
  | none => "undefined"
  | some j => jxStringify j

/-- Errors raised inside the engine: `Valid.assert` failures, `Sass.new`
wrapped errors, and transport-level failures (a rejected `fetch` or an
unparsable body). -/
inductive JsError where
  | assertFail : String → JsError
  | sass : String → JsError → JsError
  | network : String → JsError
deriving DecidableEq

/-- Models `Valid.assert(cond, msg)`. -/
def assertB (b : Bool) (msg : String) : Except JsError Unit :=
  if b then Except.ok () else Except.error (JsError.assertFail msg)

/-- The value space of the private `#overrideLoginCheck` field: initially
`undefined`, set to `null` by `get`, or to a freshly minted `Symbol`
(identified by a counter) by a bootstrap token fetch. -/
inductive OVal where
  | undef : OVal
  | nullV : OVal
  | sym : Nat → OVal
deriving DecidableEq

/-- JavaScript truthiness of an optional string (string fields of the
options object: `undefined` and the empty string are falsy). -/
def optTruthy (o : Option String) : Bool :=
  match o with
  | none => false
  | some s => s ≠ ""

/-- JavaScript `String(v)` on a possibly-undefined string. -/
def optToStr (o : Option String) : String :=
  match o with
  | none => "undefined"
  | some s => s

/-- Payload values accepted by `post`: a plain object (string fields), an
array, a primitive, or `null` — exactly the split `Data.isPlainObject`
decides on. -/
inductive JsVal where
  | obj : List (String × String) → JsVal
  | arr : List String → JsVal
  | prim : String → JsVal
  | nullV : JsVal
deriving DecidableEq

/-- Models `Data.isPlainObject`. -/
def isPlainObject : JsVal → Bool
  | JsVal.obj _ => true
  | _ => false

/-- Field list of a payload (empty for non-objects). -/
def JsVal.fieldsOf : JsVal → List (String × String)
  | JsVal.obj fs => fs
  | _ => []

/-- Property lookup on a plain object, `data.k`. -/
def objGet? (fs : List (String × String)) (k : String) : Option String :=
  (fs.find? (fun p => p.1 = k)).map (fun p => p.2)

/-- Association-list model of a JavaScript `Map` (keys are unique): `set`
updates an existing key in place, otherwise appends. -/
def mapSet : List (String × String) → String → String → List (String × String)
  | [], k, v => [(k, v)]
  | p :: t, k, v => if p.1 = k then (k, v) :: t else p :: mapSet t k v

/-- `Map.delete`. -/
def mapDelete : List (String × String) → String → List (String × String)
  | [], _ => []
  | p :: t, k => if p.1 = k then mapDelete t k else p :: mapDelete t k

/-- `Map.has`. -/
def mapHas : List (String × String) → String → Bool
  | [], _ => false
  | p :: t, k => p.1 = k || mapHas t k

/-- `Map.get`, `undefined` when the key is absent. -/
def mapGet? : List (String × String) → String → Option String
  | [], _ => none
  | p :: t, k => if p.1 = k then some p.2 else mapGet? t k

/-- Splits a string at every occurrence of a one-character separator,
mirroring JavaScript `s.split(sep)` (a match at the end yields a trailing
empty part, and splitting the empty string yields one empty part). -/
def splitCharList (sep : Char) : List Char → List (List Char)
  | [] => [[]]
  | c :: cs =>
    let r := splitCharList sep cs
    if c = sep then [] :: r
    else
      match r with
      | h :: t => (c :: h) :: t
      | [] => [[c]]

/-- String-level JavaScript `split` on a one-character separator. -/
def jsSplit (sep : Char) (s : String) : List String :=
  (splitCharList sep s.toList).map (fun l => String.mk l)

/-- JavaScript `String.prototype.trim` (whitespace at both ends). -/
def jsTrim (s : String) : String :=
  String.mk (((s.toList.dropWhile Char.isWhitespace).reverse.dropWhile
    Char.isWhitespace).reverse)

/-- A request as the transport sees it: method, path, query parameters,
form body and the cookie header (absent when the engine set none). -/
structure Req where
  method : String
  path : String
  queryParams : List (String × String)
  body : List (String × String)
  cookieHeader : Option String
deriving DecidableEq

/-- The part of a response the engine consumes: the `ok`/status triple, the
folded `set-cookie` header and the parsed JSON body (`none` when
`response.json()` would reject). -/
structure WResponse where
  ok : Bool
  status : Nat
  statusText : String
  setCookie : Option String
  json : Option Jx

/-- Outcome of one `fetch`: either the promise rejected or a response
arrived. -/
inductive TOut where
  | threw : String → TOut
  | resp : WResponse → TOut

/-- A transport oracle: the response may depend on the whole list of
previously issued requests, covering stateful server behaviour. -/
abbrev Transport := List Req → Req → TOut

namespace Wikid

/-- Engine state of the shipped `Wikid` class (`src/lib/Wikid.js`): the
credential fields, the `private` flag, the cookie array, the token cache
map, the `#overrideLoginCheck` field, and a freshness counter for minted
symbols. -/
structure Wk where
  baseUrl : Option String
  botUsername : Option String
  botPassword : Option String
  privateWiki : Bool
  cookies : List String
  tokenCache : List (String × String)
  overrideLoginCheck : OVal
  nextSym : Nat
deriving DecidableEq

/-- The constructor: credentials copied from the options object, empty
cookie array and token cache, `#overrideLoginCheck` left undefined. -/
def mkWikid (baseUrl botUsername botPassword : Option String)
    (privateWiki : Bool) : Wk :=
  { baseUrl := baseUrl, botUsername := botUsername,
    botPassword := botPassword, privateWiki := privateWiki,
    cookies := [], tokenCache := [], overrideLoginCheck := OVal.undef,
    nextSym := 0 }

/-- Models `#validate(override = null)`: a no-op when `#overrideLoginCheck`
strictly equals the `override` argument, otherwise asserts the three
credential fields truthy, in order. -/
def validate (st : Wk) (override : OVal) : Except JsError Unit :=
  if st.overrideLoginCheck = override then Except.ok ()
  else do
    assertB (optTruthy st.baseUrl) "Missing baseUrl."
    assertB (optTruthy st.botUsername) "Missing botUsername."
    assertB (optTruthy st.botPassword) "Missing botPassword."

/-- Models `#validateAfterLogin(override)`: a no-op when
`#overrideLoginCheck` strictly equals `override`, otherwise asserts a
cached login token and a non-empty cookie array. -/
def validateAfterLogin (st : Wk) (override : OVal) : Except JsError Unit :=
  if st.overrideLoginCheck = override then Except.ok ()
  else do
    assertB (mapHas st.tokenCache "login") "Not logged in."
    assertB (st.cookies.length > 0) "Not logged in."

/-- Models `#getHeaders()`: a Cookie header joining the stored cookie
strings with a semicolon-space, only when the array is non-empty. -/
def getHeaders (st : Wk) : Option String :=
  if st.cookies.length > 0 then some (String.intercalate "; " st.cookies)
  else none

/-- Models `#updateCookies(headers)` of the shipped class: when the folded
`set-cookie` header is present (and truthy), the whole cookie array is
replaced by the comma-split parts, each cut at its first semicolon and
trimmed. -/
def updateCookies (cookies : List String) (h : Option String) : List String :=
  match h with
  | none => cookies
  | some s =>
    if s = "" then cookies
    else (jsSplit ',' s).map (fun c => jsTrim ((jsSplit ';' c).headD ""))

/-- Models `logout()`: clears the cookie array and the token cache; the
`#overrideLoginCheck` field is left as it is. -/
def logout (st : Wk) : Wk :=
  { st with cookies := [], tokenCache := [] }

/-- Models `get(path, params = null, override = null)`: `#validate()` (with
its default-null argument), the private-wiki `#validateAfterLogin(override)`
guard, clearing `#overrideLoginCheck`, issuing the request, asserting the
HTTP status, applying response cookies and parsing the body.  Returns the
result, the new state and the extended request trace. -/
def get (τ : Transport) (st : Wk) (tr : List Req) (path : String)
    (params : Option (List (String × String))) (override : OVal) :
    Except JsError Jx × Wk × List Req :=
  match validate st OVal.nullV with
  | Except.error e => (Except.error e, st, tr)
  | Except.ok _ =>
    match (if st.privateWiki then validateAfterLogin st override
           else Except.ok ()) with
    | Except.error e => (Except.error e, st, tr)
    | Except.ok _ =>
      let st1 := { st with overrideLoginCheck := OVal.nullV }
      let qp := match params with
        | some l => l
        | none => []
      let req : Req :=
        { method := "GET", path := path, queryParams := qp, body := [],
          cookieHeader := getHeaders st1 }
      match τ tr req with
      | TOut.threw m => (Except.error (JsError.network m), st1, tr ++ [req])
      | TOut.resp r =>
        if r.ok then
          let st2 := { st1 with cookies := updateCookies st1.cookies r.setCookie }
          match r.json with
          | some j => (Except.ok j, st2, tr ++ [req])
          | none =>
            (Except.error (JsError.network "invalid json"), st2, tr ++ [req])
        else
          (Except.error (JsError.assertFail
            ("HTTP error! status: " ++ toString r.status ++ " - " ++
              r.statusText)), st1, tr ++ [req])

/-- Models `#getToken(type = "csrf", useOverride = false)` of the shipped
class: cache lookup first; on a miss, optionally mint a fresh override
symbol, issue the token-listing `get`, extract `"<type>token"`, assert it
truthy, cache and return it; every failure in the try block is rethrown
wrapped by `Sass.new`. -/
def getToken (τ : Transport) (st : Wk) (tr : List Req)
    (type? : Option String) (useOverride : Bool) :
    Except JsError String × Wk × List Req :=
  let type := type?.getD "csrf"
  match mapGet? st.tokenCache type with
  | some v => (Except.ok v, st, tr)
  | none =>
    let st1 := match useOverride with
      | true => { st with overrideLoginCheck := OVal.sym st.nextSym,
                          nextSym := st.nextSym + 1 }
      | false => st
    let ov := match useOverride with
      | true => OVal.sym st.nextSym
      | false => OVal.nullV
    let params := [("action", "query"), ("meta", "tokens"),
        ("format", "json")] ++
      (if type = "csrf" then [] else [("type", type)])
    match get τ st1 tr "api.php" (some params) ov with
    | (Except.error e, st2, tr2) =>
      (Except.error (JsError.sass ("Error fetching " ++ type ++ " token.") e),
        st2, tr2)
    | (Except.ok j, st2, tr2) =>
      let tokenKey := if type = "csrf" then "csrftoken" else type ++ "token"
      let tok := jxGet? (jxGet? (jxGet? (some j) "query") "tokens") tokenKey
      if jxTruthyOpt tok then
        let tv := jxToStr (tok.getD Jx.null)
        (Except.ok tv,
          { st2 with tokenCache := mapSet st2.tokenCache type tv }, tr2)
      else
        (Except.error (JsError.sass ("Error fetching " ++ type ++ " token.")
          (JsError.assertFail ("Unexpected " ++ type ++
            " token response structure: " ++ jxStringifyOpt (some j)))),
          st2, tr2)

/-- The fixed action list of the shipped class: these resolve to the shared
`"csrf"` token type, every other action resolves to its own name. -/
def csrfActions : List String :=
  ["edit", "upload", "move", "delete", "protect", "undelete", "block",
   "unblock", "rollback", "login"]

/-- The token type `post` resolves from `data.action` in the shipped class
(`csrfActions.includes(action) ? "csrf" : action`; an absent action field
leaves the argument undefined so `#getToken` falls to its default). -/
def tokenTypeFor (action : Option String) : Option String :=
  match action with
  | some a => if csrfActions.contains a then some "csrf" else some a
  | none => none

/-- Models `post(path, data)` of the shipped class: `#validate()`, the
plain-object assertion, form body construction, token-type resolution via
`csrfActions`, the unconditional `#getToken` call, token injection
(deleting any caller-supplied `token` field), the fetch, the status
assertion, the cookie update and JSON parsing. -/
def post (τ : Transport) (st : Wk) (tr : List Req) (path : String)
    (data : JsVal) : Except JsError Jx × Wk × List Req :=
  match validate st OVal.nullV with
  | Except.error e => (Except.error e, st, tr)
  | Except.ok _ =>
    if isPlainObject data then
      let fields := data.fieldsOf
      let headers := getHeaders st
      let action := objGet? fields "action"
      match getToken τ st tr (tokenTypeFor action) false with
      | (Except.error e, st2, tr2) => (Except.error e, st2, tr2)
      | (Except.ok tok, st2, tr2) =>
        let body := (fields.filter (fun p => p.1 ≠ "token")) ++ [("token", tok)]
        let req : Req :=
          { method := "POST", path := path, queryParams := [], body := body,
            cookieHeader := headers }
        match τ tr2 req with
        | TOut.threw m => (Except.error (JsError.network m), st2, tr2 ++ [req])
        | TOut.resp r =>
          if r.ok then
            let st3 := { st2 with cookies := updateCookies st2.cookies r.setCookie }
            match r.json with
            | some j => (Except.ok j, st3, tr2 ++ [req])
            | none =>
              (Except.error (JsError.network "invalid json"), st3, tr2 ++ [req])
          else
            (Except.error (JsError.assertFail
              ("HTTP error! status: " ++ toString r.status ++ " - " ++
                r.statusText)), st2, tr2 ++ [req])
    else
      (Except.error (JsError.assertFail "Invalid data format. Use plain object."),
        st, tr)

/-- Result object of `login()`. -/
structure LoginResult where
  ok : Bool
  error : Option JsError
deriving DecidableEq

/-- Models `login()`: validate, fetch the login token (`#getLoginToken`,
an override-minting `#getToken("login", true)`), post the login action,
check `login.result`, pre-fetch the CSRF token, and catch every failure
into an `{ok: false, error}` result. -/
def login (τ : Transport) (st : Wk) (tr : List Req) :
    LoginResult × Wk × List Req :=
  match validate st OVal.nullV with
  | Except.error e => ({ ok := false, error := some e }, st, tr)
  | Except.ok _ =>
    match getToken τ st tr (some "login") true with
    | (Except.error e, st1, tr1) => ({ ok := false, error := some e }, st1, tr1)
    | (Except.ok loginToken, st1, tr1) =>
      match post τ st1 tr1 "api.php"
          (JsVal.obj [("action", "login"),
            ("lgname", optToStr st1.botUsername),
            ("lgpassword", optToStr st1.botPassword),
            ("lgtoken", loginToken), ("format", "json")]) with
      | (Except.error e, st2, tr2) =>
        ({ ok := false, error := some e }, st2, tr2)
      | (Except.ok j, st2, tr2) =>
        let result := jxGet? (jxGet? (some j) "login") "result"
        if jxTruthyOpt result then
          if jxIsStr result "Success" then
            match getToken τ st2 tr2 (some "csrf") true with
            | (Except.error e, st3, tr3) =>
              ({ ok := false, error := some e }, st3, tr3)
            | (Except.ok _, st3, tr3) =>
              ({ ok := true, error := none }, st3, tr3)
          else
            let reason := jxGet? (jxGet? (some j) "login") "reason"
            ({ ok := false, error := some (JsError.assertFail
              ("Login failed: " ++
                (if jxTruthyOpt reason then jxToStr (reason.getD Jx.null)
                 else "Unknown error"))) }, st2, tr2)
        else
          ({ ok := false, error := some (JsError.assertFail
            ("Unexpected login response structure: " ++
              jxStringifyOpt result)) }, st2, tr2)

end Wikid

/-- JavaScript `new Set(x, ...rest)` keeps only its first argument and
iterates it; a string iterates into its characters.  The result is the
deduplicated character list, in first-occurrence order, as one-character
strings. -/
def jsSetOfFirstArg (s : String) : List String :=
  (s.toList.foldl
    (fun acc c => if acc.contains c then acc else acc ++ [c]) []).map
    (fun c => String.mk [c])

namespace WikidB

/-- The `notCrsfActions` constant of the Map-based class, exactly as the
source builds it: `new Set("createaccount", "login", "patrol", "rollback",
"userrights", "watch")` — the Set constructor takes a single iterable, so
only the first string contributes, character by character. -/
def notCrsfActions : List String := jsSetOfFirstArg "createaccount"

/-- Engine state of the Map-based `Wikid` class: identical to the shipped
class except that the cookie store is a name-to-value map. -/
structure Wk where
  baseUrl : Option String
  botUsername : Option String
  botPassword : Option String
  privateWiki : Bool
  cookies : List (String × String)
  tokenCache : List (String × String)
  overrideLoginCheck : OVal
  nextSym : Nat
deriving DecidableEq

/-- The constructor of the Map-based class. -/
def mkWikid (baseUrl botUsername botPassword : Option String)
    (privateWiki : Bool) : Wk :=
  { baseUrl := baseUrl, botUsername := botUsername,
    botPassword := botPassword, privateWiki := privateWiki,
    cookies := [], tokenCache := [], overrideLoginCheck := OVal.undef,
    nextSym := 0 }

/-- Models `#validate(override = null)` (same text as the shipped class). -/
def validate (st : Wk) (override : OVal) : Except JsError Unit :=
  if st.overrideLoginCheck = override then Except.ok ()
  else do
    assertB (optTruthy st.baseUrl) "Missing baseUrl."
    assertB (optTruthy st.botUsername) "Missing botUsername."
    assertB (optTruthy st.botPassword) "Missing botPassword."

/-- Models `#validateAfterLogin(override)` (cookie map size instead of
array length). -/
def validateAfterLogin (st : Wk) (override : OVal) : Except JsError Unit :=
  if st.overrideLoginCheck = override then Except.ok ()
  else do
    assertB (mapHas st.tokenCache "login") "Not logged in."
    assertB (st.cookies.length > 0) "Not logged in."

/-- Models `#getCookieHeader()`: the map rendered as `name=value` pairs
joined by a semicolon-space (empty string for an empty map). -/
def getCookieHeader (st : Wk) : String :=
  String.intercalate "; " (st.cookies.map (fun p => p.1 ++ "=" ++ p.2))

/-- The argument shape `#updateCookies` accepts in the Map-based class:
null/undefined, a single folded header string, or an array of header
strings. -/
inductive CookieArg where
  | nullArg : CookieArg
  | strArg : String → CookieArg
  | arrArg : List String → CookieArg
deriving DecidableEq

/-- Converts the folded header returned by `headers.get("set-cookie")`
(null or a string) into the updater argument. -/
def cookieArgOf (o : Option String) : CookieArg :=
  match o with
  | none => CookieArg.nullArg
  | some s => CookieArg.strArg s

/-- One iteration of the `#updateCookies` loop: cut the raw value at its
first semicolon, split the leading part at `=`; a truthy value is stored
under the trimmed name, otherwise the trimmed name is deleted. -/
def applyCookie (jar : List (String × String)) (header : String) :
    List (String × String) :=
  let nameValue := (jsSplit ';' header).headD ""
  let kv := jsSplit '=' nameValue
  let name := kv.headD ""
  match kv.drop 1 with
  | v :: _ =>
    if v ≠ "" then mapSet jar (jsTrim name) (jsTrim v)
    else mapDelete jar (jsTrim name)
  | [] => mapDelete jar (jsTrim name)

/-- The cookie name the `#updateCookies` loop acts on for one raw value:
the trimmed part before the first `=` of the part before the first `;`. -/
def cookieName (header : String) : String :=
  jsTrim ((jsSplit '=' ((jsSplit ';' header).headD "")).headD "")

/-- Models `#updateCookies(setCookieHeaders)` of the Map-based class: a
falsy argument (null, undefined or the empty string) is ignored, a string
is wrapped into a one-element array, and each raw value is applied in
order. -/
def updateCookies (jar : List (String × String)) (arg : CookieArg) :
    List (String × String) :=
  match arg with
  | CookieArg.nullArg => jar
  | CookieArg.strArg s => if s = "" then jar else [s].foldl applyCookie jar
  | CookieArg.arrArg l => l.foldl applyCookie jar

/-- Models `logout()` of the Map-based class: clears the cookie map and
the token cache. -/
def logout (st : Wk) : Wk :=
  { st with cookies := [], tokenCache := [] }

/-- Models `get(path, params = null, override = null)` of the Map-based
class (the Cookie header is always set, possibly empty). -/
def get (τ : Transport) (st : Wk) (tr : List Req) (path : String)
    (params : Option (List (String × String))) (override : OVal) :
    Except JsError Jx × Wk × List Req :=
  match validate st OVal.nullV with
  | Except.error e => (Except.error e, st, tr)
  | Except.ok _ =>
    match (if st.privateWiki then validateAfterLogin st override
           else Except.ok ()) with
    | Except.error e => (Except.error e, st, tr)
    | Except.ok _ =>
      let st1 := { st with overrideLoginCheck := OVal.nullV }
      let qp := match params with
        | some l => l
        | none => []
      let req : Req :=
        { method := "GET", path := path, queryParams := qp, body := [],
          cookieHeader := some (getCookieHeader st1) }
      match τ tr req with
      | TOut.threw m => (Except.error (JsError.network m), st1, tr ++ [req])
      | TOut.resp r =>
        if r.ok then
          let st2 :=
            { st1 with
              cookies := updateCookies st1.cookies (cookieArgOf r.setCookie) }
          match r.json with
          | some j => (Except.ok j, st2, tr ++ [req])
          | none =>
            (Except.error (JsError.network "invalid json"), st2, tr ++ [req])
        else
          (Except.error (JsError.assertFail
            ("HTTP error! status: " ++ toString r.status ++ " - " ++
              r.statusText)), st1, tr ++ [req])

/-- The token type `#getToken` of the Map-based class actually works with:
the default for an undefined argument, then the remap
`type = notCrsfActions.has(type) ? "csrf" : type`. -/
def resolveType (type? : Option String) : String :=
  let type0 := type?.getD "csrf"
  if notCrsfActions.contains type0 then "csrf" else type0

/-- Models `#getToken(type = "csrf", useOverride = false)` of the Map-based
class: the type is first remapped through `notCrsfActions` membership, the
token-listing request always carries a `type` parameter, and the token key
is `type + "token"`. -/
def getToken (τ : Transport) (st : Wk) (tr : List Req)
    (type? : Option String) (useOverride : Bool) :
    Except JsError String × Wk × List Req :=
  let type := resolveType type?
  match mapGet? st.tokenCache type with
  | some v => (Except.ok v, st, tr)
  | none =>
    let st1 := match useOverride with
      | true => { st with overrideLoginCheck := OVal.sym st.nextSym,
                          nextSym := st.nextSym + 1 }
      | false => st
    let ov := match useOverride with
      | true => OVal.sym st.nextSym
      | false => OVal.nullV
    let params := [("action", "query"), ("meta", "tokens"),
        ("format", "json"), ("type", type)]
    match get τ st1 tr "api.php" (some params) ov with
    | (Except.error e, st2, tr2) =>
      (Except.error (JsError.sass ("Error fetching " ++ type ++ " token.") e),
        st2, tr2)
    | (Except.ok j, st2, tr2) =>
      let tokenKey := type ++ "token"
      let tok := jxGet? (jxGet? (jxGet? (some j) "query") "tokens") tokenKey
      if jxTruthyOpt tok then
        let tv := jxToStr (tok.getD Jx.null)
        (Except.ok tv,
          { st2 with tokenCache := mapSet st2.tokenCache type tv }, tr2)
      else
        (Except.error (JsError.sass ("Error fetching " ++ type ++ " token.")
          (JsError.assertFail ("Unexpected " ++ type ++
            " token response structure: " ++ jxStringifyOpt (some j)))),
          st2, tr2)

/-- The token type `post` resolves from `data.action` in the Map-based
class (`notCrsfActions.has(action) ? action : "csrf"`). -/
def tokenTypeFor (action : Option String) : String :=
  match action with
  | some a => if notCrsfActions.contains a then a else "csrf"
  | none => "csrf"

/-- Models `post(path, data)` of the Map-based class: as in the shipped
class, except that the Cookie header is always present, the token type
comes from `notCrsfActions`, and for `action === "login"` no token is
looked up and none is appended. -/
def post (τ : Transport) (st : Wk) (tr : List Req) (path : String)
    (data : JsVal) : Except JsError Jx × Wk × List Req :=
  match validate st OVal.nullV with
  | Except.error e => (Except.error e, st, tr)
  | Except.ok _ =>
    if isPlainObject data then
      let fields := data.fieldsOf
      let headers := some (getCookieHeader st)
      let action := objGet? fields "action"
      let tokenStep : Except JsError (Option String) × Wk × List Req :=
        if action = some "login" then (Except.ok none, st, tr)
        else
          match getToken τ st tr (some (tokenTypeFor action)) false with
          | (Except.error e, st2, tr2) => (Except.error e, st2, tr2)
          | (Except.ok tok, st2, tr2) => (Except.ok (some tok), st2, tr2)
      match tokenStep with
      | (Except.error e, st2, tr2) => (Except.error e, st2, tr2)
      | (Except.ok tok?, st2, tr2) =>
        let body0 := fields.filter (fun p => p.1 ≠ "token")
        let body := match tok? with
          | some tok => body0 ++ [("token", tok)]
          | none => body0
        let req : Req :=
          { method := "POST", path := path, queryParams := [], body := body,
            cookieHeader := headers }
        match τ tr2 req with
        | TOut.threw m => (Except.error (JsError.network m), st2, tr2 ++ [req])
        | TOut.resp r =>
          if r.ok then
            let st3 :=
              { st2 with
                cookies := updateCookies st2.cookies (cookieArgOf r.setCookie) }
            match r.json with
            | some j => (Except.ok j, st3, tr2 ++ [req])
            | none =>
              (Except.error (JsError.network "invalid json"), st3, tr2 ++ [req])
          else
            (Except.error (JsError.assertFail
              ("HTTP error! status: " ++ toString r.status ++ " - " ++
                r.statusText)), st2, tr2 ++ [req])
    else
      (Except.error (JsError.assertFail "Invalid data format. Use plain object."),
        st, tr)

end WikidB

/-- Convenience: whether an engine call result is a success. -/
def exOk (e : Except JsError Jx) : Bool :=
  match e with
  | Except.ok _ => true
  | Except.error _ => false

/-- A placeholder request used only as the default of `List.headD`. -/
def reqDefault : Req :=
  { method := "", path := "", queryParams := [], body := [],
    cookieHeader := none }

/-- A token-listing response body carrying one token field. -/
def jTok (k v : String) : Jx :=
  Jx.obj [("query", Jx.obj [("tokens", Jx.obj [(k, Jx.str v)])])]

/-- A successful HTTP response with the given folded `set-cookie` header
and JSON body. -/
def rOk (sc : Option String) (j : Jx) : TOut :=
  TOut.resp
    { ok := true, status := 200, statusText := "OK", setCookie := sc,
      json := some j }

/-- Scenario transport: serves a complete successful login handshake of the
shipped class (login-token fetch with a session cookie, csrf-token fetch,
successful login post with a fresh session cookie), then a generic empty
body for any later call. -/
def tauLoginSuccess : Transport := fun tr _ =>
  match tr.length with
  | 0 => rOk (some "ses=1") (jTok "logintoken" "LT")
  | 1 => rOk none (jTok "csrftoken" "CT")
  | 2 => rOk (some "ses=2")
      (Jx.obj [("login", Jx.obj [("result", Jx.str "Success")])])
  | _ => rOk none (Jx.obj [])

/-- Scenario transport: the token fetches succeed (the first one setting a
session cookie) but the upstream rejects the login credentials. -/
def tauLoginFailed : Transport := fun tr _ =>
  match tr.length with
  | 0 => rOk (some "s=1") (jTok "logintoken" "LT")
  | 1 => rOk none (jTok "csrftoken" "CT")
  | _ => rOk none (Jx.obj [("login",
      Jx.obj [("result", Jx.str "Failed"), ("reason", Jx.str "bad pass")])])

/-- Scenario transport: a fully successful login handshake during which no
response ever carries a `set-cookie` header. -/
def tauNoCookies : Transport := fun tr _ =>
  match tr.length with
  | 0 => rOk none (jTok "logintoken" "LT")
  | 1 => rOk none (jTok "csrftoken" "CT")
  | _ => rOk none (Jx.obj [("login", Jx.obj [("result", Jx.str "Success")])])

/-- Scenario transport: a pre-login csrf-token fetch answered with an
anonymous token, then a successful login post. -/
def tauAnonCsrf : Transport := fun tr _ =>
  match tr.length with
  | 0 => rOk none (jTok "csrftoken" "ANON")
  | _ => rOk none (Jx.obj [("login", Jx.obj [("result", Jx.str "Success")])])

/-- Scenario transport: every `fetch` rejects with a connection error. -/
def tauDown : Transport := fun _ _ => TOut.threw "ECONNREFUSED"

/-- A fully configured shipped-class engine for a private wiki. -/
def wkPrivate : Wikid.Wk :=
  Wikid.mkWikid (some "https://wiki.example") (some "Bot") (some "pw") true

/-- A fully configured shipped-class engine for a public wiki. -/
def wkPublic : Wikid.Wk :=
  Wikid.mkWikid (some "https://wiki.example") (some "Bot") (some "pw") false

/-- A fully configured Map-based-class engine for a public wiki. -/
def wkPublicB : WikidB.Wk :=
  WikidB.mkWikid (some "https://wiki.example") (some "Bot") (some "pw") false

/-- The form payload `login()` submits, at concrete credentials. -/
def loginPayload : JsVal :=
  JsVal.obj [("action", "login"), ("lgname", "Bot"), ("lgpassword", "pw"),
    ("lgtoken", "LT"), ("format", "json")]

/-- Setting a key makes it retrievable with the written value. -/
theorem mapGet?_mapSet_self (m : List (String × String)) (k v : String) :
    mapGet? (mapSet m k v) k = some v := by
  induction m with
  | nil => simp [mapSet, mapGet?]
  | cons a t ih =>
    by_cases ha : a.1 = k
    · simp [mapSet, mapGet?, ha]
    · simp [mapSet, mapGet?, ha, ih]

/-- Setting one key leaves every other key unchanged. -/
theorem mapGet?_mapSet_ne (m : List (String × String)) (k v k2 : String)
    (h : k2 ≠ k) : mapGet? (mapSet m k v) k2 = mapGet? m k2 := by
  induction m with
  | nil => simp [mapSet, mapGet?, Ne.symm h]
  | cons a t ih =>
    by_cases ha : a.1 = k
    · simp [mapSet, mapGet?, ha, Ne.symm h, ha ▸ (Ne.symm h)]
    · by_cases hb : a.1 = k2
      · simp [mapSet, mapGet?, ha, hb, h]
      · simp [mapSet, mapGet?, ha, hb, h, ih]

/-- Deleting one key leaves every other key unchanged. -/
theorem mapGet?_mapDelete_ne (m : List (String × String)) (k k2 : String)
    (h : k2 ≠ k) : mapGet? (mapDelete m k) k2 = mapGet? m k2 := by
  induction m with
  | nil => simp [mapDelete]
  | cons a t ih =>
    by_cases ha : a.1 = k
    · have hb : ¬ (a.1 = k2) := fun hx => h (hx ▸ ha)
      simp [mapDelete, mapGet?, ha, hb, Ne.symm h, ih]
    · by_cases hb : a.1 = k2
      · simp [mapDelete, mapGet?, ha, hb, h]
      · simp [mapDelete, mapGet?, ha, hb, h, ih]

/-- A deleted key is gone. -/
theorem mapHas_mapDelete_self (m : List (String × String)) (k : String) :
    mapHas (mapDelete m k) k = false := by
  induction m with
  | nil => simp [mapDelete, mapHas]
  | cons a t ih =>
    by_cases ha : a.1 = k
    · simp [mapDelete, ha, ih]
    · simp [mapDelete, mapHas, ha, ih]

/-- A present key survives any `set`. -/
theorem mapHas_mapSet_mono (m : List (String × String)) (k k2 v : String)
    (h : mapHas m k = true) : mapHas (mapSet m k2 v) k = true := by
  induction m with
  | nil => simp [mapHas] at h
  | cons a t ih =>
    by_cases ha : a.1 = k2
    · by_cases hb : k2 = k
      · simp [mapSet, mapHas, ha, hb]
      · simp only [mapHas, Bool.or_eq_true, decide_eq_true_eq] at h
        rcases h with h | h
        · exact absurd (ha ▸ h) hb
        · simp [mapSet, mapHas, ha, h]
    · simp only [mapHas, Bool.or_eq_true, decide_eq_true_eq] at h
      rcases h with h | h
      · by_cases hc : k = k2
        · simp [mapSet, mapHas, ha, h, hc]
        · simp [mapSet, mapHas, ha, h, hc]
      · simp [mapSet, mapHas, ha, ih h]

/-- A retrievable key is present. -/
theorem mapHas_of_mapGet? (m : List (String × String)) (k v : String)
    (h : mapGet? m k = some v) : mapHas m k = true := by
  induction m with
  | nil => simp [mapGet?] at h
  | cons a t ih =>
    by_cases ha : a.1 = k
    · simp [mapHas, ha]
    · simp only [mapGet?, ha, if_false] at h
      simp [mapHas, ha, ih h]

/-- A `get` of the shipped class never touches the token cache. -/
theorem Wikid.get_tokenCache_eq (τ : Transport) (st : Wikid.Wk)
    (tr : List Req) (path : String)
    (params : Option (List (String × String))) (ov : OVal) :
    (Wikid.get τ st tr path params ov).2.1.tokenCache = st.tokenCache := by
  unfold Wikid.get
  repeat'
    first
      | rfl
      | split
      | dsimp only

/-- A `get` of the Map-based class never touches the token cache. -/
theorem WikidB.getB_tokenCache_eq (τ : Transport) (st : WikidB.Wk)
    (tr : List Req) (path : String)
    (params : Option (List (String × String))) (ov : OVal) :
    (WikidB.get τ st tr path params ov).2.1.tokenCache = st.tokenCache := by
  unfold WikidB.get
  repeat'
    first
      | rfl
      | split
      | dsimp only

theorem Wikid.getToken_cacheHit (τ : Transport) (st : Wikid.Wk) (tr : List Req)
    (type? : Option String) (uo : Bool) (v : String)
    (h : mapGet? st.tokenCache (type?.getD "csrf") = some v) :
    Wikid.getToken τ st tr type? uo = (Except.ok v, st, tr) := by
  unfold Wikid.getToken
  dsimp only
  rw [h]

theorem Wikid.getToken_ok_spec (τ : Transport) (st : Wikid.Wk) (tr : List Req)
    (type? : Option String) (uo : Bool) (v : String) (st' : Wikid.Wk)
    (tr' : List Req)
    (h : Wikid.getToken τ st tr type? uo = (Except.ok v, st', tr')) :
    mapGet? st'.tokenCache (type?.getD "csrf") = some v ∧
    (st'.tokenCache = st.tokenCache ∨
      st'.tokenCache = mapSet st.tokenCache (type?.getD "csrf") v) := by
  unfold Wikid.getToken at h
  dsimp only at h
  split at h
  · next w heq =>
    simp only [Prod.mk.injEq, Except.ok.injEq] at h
    obtain ⟨rfl, rfl, rfl⟩ := h
    exact ⟨heq, Or.inl rfl⟩
  · next heq =>
    split at h
    next e st2 tr2 heq2 =>
      injection h with h1 h2
      exact Except.noConfusion h1
    next j st2 tr2 heq2 =>
      have hic := congrArg (fun x => x.2.1.tokenCache) heq2
      simp only at hic
      rw [Wikid.get_tokenCache_eq] at hic
      have hc : st2.tokenCache = st.tokenCache := by
        cases uo <;> exact hic.symm
      split at h <;> split at h <;>
        first
          | (injection h with h1 h2
             exact Except.noConfusion h1)
          | (simp only [Prod.mk.injEq, Except.ok.injEq] at h
             obtain ⟨rfl, rfl, rfl⟩ := h
             refine ⟨by rw [hc]; exact mapGet?_mapSet_self _ _ _, Or.inr (by rw [hc])⟩)

theorem Wikid.getToken_err_spec (τ : Transport) (st : Wikid.Wk) (tr : List Req)
    (type? : Option String) (uo : Bool) (e : JsError) (st' : Wikid.Wk)
    (tr' : List Req)
    (h : Wikid.getToken τ st tr type? uo = (Except.error e, st', tr')) :
    st'.tokenCache = st.tokenCache ∧
    ∃ m c, e = JsError.sass m c := by
  unfold Wikid.getToken at h
  dsimp only at h
  split at h
  · next w heq =>
    injection h with h1 h2
    exact Except.noConfusion h1
  · next heq =>
    split at h
    next e2 st2 tr2 heq2 =>
      simp only [Prod.mk.injEq, Except.error.injEq] at h
      obtain ⟨rfl, rfl, rfl⟩ := h
      have hic := congrArg (fun x => x.2.1.tokenCache) heq2
      simp only at hic
      rw [Wikid.get_tokenCache_eq] at hic
      have hc : st2.tokenCache = st.tokenCache := by
        cases uo <;> exact hic.symm
      exact ⟨hc, _, _, rfl⟩
    next j st2 tr2 heq2 =>
      have hic := congrArg (fun x => x.2.1.tokenCache) heq2
      simp only at hic
      rw [Wikid.get_tokenCache_eq] at hic
      have hc : st2.tokenCache = st.tokenCache := by
        cases uo <;> exact hic.symm
      split at h <;> split at h <;>
        first
          | (injection h with h1 h2
             exact Except.noConfusion h1)
          | (simp only [Prod.mk.injEq, Except.error.injEq] at h
             obtain ⟨rfl, rfl, rfl⟩ := h
             exact ⟨hc, _, _, rfl⟩)

theorem WikidB.getTokenB_cacheHit (τ : Transport) (st : WikidB.Wk)
    (tr : List Req) (type? : Option String) (uo : Bool) (v : String)
    (h : mapGet? st.tokenCache (WikidB.resolveType type?) = some v) :
    WikidB.getToken τ st tr type? uo = (Except.ok v, st, tr) := by
  unfold WikidB.getToken
  dsimp only
  rw [h]

theorem WikidB.getTokenB_ok_spec (τ : Transport) (st : WikidB.Wk)
    (tr : List Req) (type? : Option String) (uo : Bool) (v : String)
    (st' : WikidB.Wk) (tr' : List Req)
    (h : WikidB.getToken τ st tr type? uo = (Except.ok v, st', tr')) :
    mapGet? st'.tokenCache (WikidB.resolveType type?) = some v ∧
    (st'.tokenCache = st.tokenCache ∨
      st'.tokenCache = mapSet st.tokenCache (WikidB.resolveType type?) v) := by
  unfold WikidB.getToken at h
  dsimp only at h
  split at h
  · next w heq =>
    simp only [Prod.mk.injEq, Except.ok.injEq] at h
    obtain ⟨rfl, rfl, rfl⟩ := h
    exact ⟨heq, Or.inl rfl⟩
  · next heq =>
    split at h
    next e st2 tr2 heq2 =>
      injection h with h1 h2
      exact Except.noConfusion h1
    next j st2 tr2 heq2 =>
      have hic := congrArg (fun x => x.2.1.tokenCache) heq2
      simp only at hic
      rw [WikidB.getB_tokenCache_eq] at hic
      have hc : st2.tokenCache = st.tokenCache := by
        cases uo <;> exact hic.symm
      split at h <;>
        first
          | (injection h with h1 h2
             exact Except.noConfusion h1)
          | (simp only [Prod.mk.injEq, Except.ok.injEq] at h
             obtain ⟨rfl, rfl, rfl⟩ := h
             refine ⟨by rw [hc]; exact mapGet?_mapSet_self _ _ _,
               Or.inr (by rw [hc])⟩)

theorem WikidB.getTokenB_err_spec (τ : Transport) (st : WikidB.Wk)
    (tr : List Req) (type? : Option String) (uo : Bool) (e : JsError)
    (st' : WikidB.Wk) (tr' : List Req)
    (h : WikidB.getToken τ st tr type? uo = (Except.error e, st', tr')) :
    st'.tokenCache = st.tokenCache ∧
    ∃ m c, e = JsError.sass m c := by
  unfold WikidB.getToken at h
  dsimp only at h
  split at h
  · next w heq =>
    injection h with h1 h2
    exact Except.noConfusion h1
  · next heq =>
    split at h
    next e2 st2 tr2 heq2 =>
      simp only [Prod.mk.injEq, Except.error.injEq] at h
      obtain ⟨rfl, rfl, rfl⟩ := h
      have hic := congrArg (fun x => x.2.1.tokenCache) heq2
      simp only at hic
      rw [WikidB.getB_tokenCache_eq] at hic
      have hc : st2.tokenCache = st.tokenCache := by
        cases uo <;> exact hic.symm
      exact ⟨hc, _, _, rfl⟩
    next j st2 tr2 heq2 =>
      have hic := congrArg (fun x => x.2.1.tokenCache) heq2
      simp only at hic
      rw [WikidB.getB_tokenCache_eq] at hic
      have hc : st2.tokenCache = st.tokenCache := by
        cases uo <;> exact hic.symm
      split at h <;>
        first
          | (injection h with h1 h2
             exact Except.noConfusion h1)
          | (simp only [Prod.mk.injEq, Except.error.injEq] at h
             obtain ⟨rfl, rfl, rfl⟩ := h
             exact ⟨hc, _, _, rfl⟩)

theorem Wikid.getToken_tokenCache_mono (τ : Transport) (st : Wikid.Wk)
    (tr : List Req) (t : Option String) (uo : Bool) (k : String)
    (h : mapHas st.tokenCache k = true) :
    mapHas (Wikid.getToken τ st tr t uo).2.1.tokenCache k = true := by
  rcases hr : Wikid.getToken τ st tr t uo with ⟨res, st', tr'⟩
  show mapHas st'.tokenCache k = true
  cases res with
  | ok v =>
    rcases (Wikid.getToken_ok_spec τ st tr t uo v st' tr' hr).2 with h2 | h2
    · rw [h2]; exact h
    · rw [h2]; exact mapHas_mapSet_mono _ _ _ _ h
  | error e =>
    rw [(Wikid.getToken_err_spec τ st tr t uo e st' tr' hr).1]
    exact h

theorem Wikid.post_tokenCache_mono (τ : Transport) (st : Wikid.Wk)
    (tr : List Req) (path : String) (d : JsVal) (k : String)
    (h : mapHas st.tokenCache k = true) :
    mapHas (Wikid.post τ st tr path d).2.1.tokenCache k = true := by
  unfold Wikid.post
  dsimp only
  split
  · exact h
  · split
    · split
      next e st2 tr2 heq =>
        rw [(Wikid.getToken_err_spec _ _ _ _ _ _ _ _ heq).1]
        exact h
      next tok st2 tr2 heq =>
        have hmono : mapHas st2.tokenCache k = true := by
          rcases (Wikid.getToken_ok_spec _ _ _ _ _ _ _ _ heq).2 with h2 | h2
          · rw [h2]; exact h
          · rw [h2]; exact mapHas_mapSet_mono _ _ _ _ h
        split
        · exact hmono
        · split
          · split <;> exact hmono
          · exact hmono
    · exact h

theorem Wikid.login_validate_err (τ : Transport) (st : Wikid.Wk)
    (tr : List Req) (e : JsError)
    (h : Wikid.validate st OVal.nullV = Except.error e) :
    Wikid.login τ st tr = ({ ok := false, error := some e }, st, tr) := by
  unfold Wikid.login
  rw [h]

theorem Wikid.login_ok_caches (τ : Transport) (st : Wikid.Wk) (tr : List Req)
    (h : (Wikid.login τ st tr).1.ok = true) :
    mapHas (Wikid.login τ st tr).2.1.tokenCache "login" = true ∧
    mapHas (Wikid.login τ st tr).2.1.tokenCache "csrf" = true := by
  rcases hr : Wikid.login τ st tr with ⟨res, stF, trF⟩
  have h' : res.ok = true := by rw [hr] at h; exact h
  show mapHas stF.tokenCache "login" = true ∧ mapHas stF.tokenCache "csrf" = true
  unfold Wikid.login at hr
  split at hr
  · injection hr with h1 h2
    rw [← h1] at h'
    simp at h'
  · split at hr
    next e st1 tr1 heq1 =>
      injection hr with h1 h2
      rw [← h1] at h'
      simp at h'
    next lt st1 tr1 heq1 =>
      split at hr
      next e st2 tr2 heq2 =>
        injection hr with h1 h2
        rw [← h1] at h'
        simp at h'
      next j st2 tr2 heq2 =>
        split at hr
        next e st3 tr3 heq3 =>
          dsimp only at hr
          split at hr
          · split at hr
            · injection hr with h1 h2
              rw [← h1] at h'
              simp at h'
            · injection hr with h1 h2
              rw [← h1] at h'
              simp at h'
          · injection hr with h1 h2
            rw [← h1] at h'
            simp at h'
        next v st3 tr3 heq3 =>
          dsimp only at hr
          split at hr
          · split at hr
            · injection hr with h1 h2
              injection h2 with h2a h2b
              subst h2a
              have hl1 : mapHas st1.tokenCache "login" = true :=
                mapHas_of_mapGet? _ _ _
                  (Wikid.getToken_ok_spec _ _ _ _ _ _ _ _ heq1).1
              have hl2 : mapHas st2.tokenCache "login" = true := by
                have := Wikid.post_tokenCache_mono τ st1 tr1 "api.php"
                  (JsVal.obj [("action", "login"),
                    ("lgname", optToStr st1.botUsername),
                    ("lgpassword", optToStr st1.botPassword),
                    ("lgtoken", lt), ("format", "json")]) "login" hl1
                rw [heq2] at this
                exact this
              have hl3 : mapHas st3.tokenCache "login" = true := by
                have := Wikid.getToken_tokenCache_mono τ st2 tr2
                  (some "csrf") true "login" hl2
                rw [heq3] at this
                exact this
              have hc3 : mapHas st3.tokenCache "csrf" = true :=
                mapHas_of_mapGet? _ _ _
                  (Wikid.getToken_ok_spec _ _ _ _ _ _ _ _ heq3).1
              exact ⟨hl3, hc3⟩
            · injection hr with h1 h2
              rw [← h1] at h'
              simp at h'
          · injection hr with h1 h2
            rw [← h1] at h'
            simp at h'

theorem WikidB.applyCookie_frame (jar : List (String × String)) (h : String)
    (k : String) (hne : WikidB.cookieName h ≠ k) :
    mapGet? (WikidB.applyCookie jar h) k = mapGet? jar k := by
  unfold WikidB.applyCookie
  dsimp only
  split
  · next v rest heq =>
    split
    · exact mapGet?_mapSet_ne _ _ _ _ (fun hx => hne (hx.symm))
    · exact mapGet?_mapDelete_ne _ _ _ (fun hx => hne (hx.symm))
  · exact mapGet?_mapDelete_ne _ _ _ (fun hx => hne (hx.symm))

theorem WikidB.foldl_applyCookie_frame (hdrs : List String)
    (jar : List (String × String)) (k : String)
    (hne : ∀ s ∈ hdrs, WikidB.cookieName s ≠ k) :
    mapGet? (hdrs.foldl WikidB.applyCookie jar) k = mapGet? jar k := by
  induction hdrs generalizing jar with
  | nil => rfl
  | cons a t ih =>
    rw [List.foldl_cons]
    rw [ih _ (fun s hs => hne s (List.mem_cons_of_mem a hs))]
    exact WikidB.applyCookie_frame jar a k (hne a (List.mem_cons_self a t))

/-- C1: the claim that the bypass marker is one-shot and that later calls
without a fresh marker really run the guards is refuted by evaluation: on a
private wiki, after a successful `login()` followed by `logout()`, the
engine is no longer session-established (`login` token gone, cookie store
empty), yet a plain `get()` proceeds and issues a fourth transport request
instead of failing with the not-logged-in guard — the cleared marker value
`null` strictly equals the default `override` argument, so both
`#validate` and `#validateAfterLogin` return without checking. -/
theorem c1_bypass_marker_guard_skipped :
    (Wikid.login tauLoginSuccess wkPrivate []).1.ok = true ∧
    wkPrivate.privateWiki = true ∧
    mapHas (Wikid.logout (Wikid.login tauLoginSuccess wkPrivate []).2.1).tokenCache
      "login" = false ∧
    (Wikid.logout (Wikid.login tauLoginSuccess wkPrivate []).2.1).cookies = [] ∧
    exOk (Wikid.get tauLoginSuccess
      (Wikid.logout (Wikid.login tauLoginSuccess wkPrivate []).2.1)
      (Wikid.login tauLoginSuccess wkPrivate []).2.2 "api.php"
      (some [("action", "query")]) OVal.nullV).1 = true ∧
    (Wikid.get tauLoginSuccess
      (Wikid.logout (Wikid.login tauLoginSuccess wkPrivate []).2.1)
      (Wikid.login tauLoginSuccess wkPrivate []).2.2 "api.php"
      (some [("action", "query")]) OVal.nullV).2.2.length = 4 := by
  decide

/-- C3: in the shipped class a `post` whose payload action is `login`
does perform a token lookup — `login` is in `csrfActions`, so the post
issues a csrf-token-listing GET first (two transport calls in total),
caches the anonymous token and appends it as a `token` form field; the
Map-based class, by contrast, issues exactly one call and appends no
token. -/
theorem c3_login_post_fetches_token :
    (Wikid.post tauAnonCsrf wkPublic [] "api.php" loginPayload).2.2.length = 2 ∧
    ((Wikid.post tauAnonCsrf wkPublic [] "api.php" loginPayload).2.2.headD
      reqDefault).method = "GET" ∧
    ((Wikid.post tauAnonCsrf wkPublic [] "api.php" loginPayload).2.2.headD
      reqDefault).queryParams =
        [("action", "query"), ("meta", "tokens"), ("format", "json")] ∧
    ((Wikid.post tauAnonCsrf wkPublic [] "api.php" loginPayload).2.2.getLast?).map
      (fun r => r.body) = some [("action", "login"), ("lgname", "Bot"),
        ("lgpassword", "pw"), ("lgtoken", "LT"), ("format", "json"),
        ("token", "ANON")] ∧
    mapGet? (Wikid.post tauAnonCsrf wkPublic [] "api.php" loginPayload).2.1.tokenCache
      "csrf" = some "ANON" ∧
    (WikidB.post tauAnonCsrf wkPublicB [] "api.php" loginPayload).2.2.length = 1 ∧
    ((WikidB.post tauAnonCsrf wkPublicB [] "api.php" loginPayload).2.2.headD
      reqDefault).body = [("action", "login"), ("lgname", "Bot"),
        ("lgpassword", "pw"), ("lgtoken", "LT"), ("format", "json")] ∧
    (WikidB.post tauAnonCsrf wkPublicB [] "api.php" loginPayload).2.1.tokenCache = [] := by
  decide

/-- C2 counterexample: a failed `login()` does not leave the token cache
and cookie store as they were — after the upstream rejects the
credentials, the login token (and the csrf token fetched for the login
post) stay cached and the cookie store carries the token-fetch session
cookie; and a successful `login()` can leave the cookie store empty when
no response carried cookies. -/
theorem c2_login_atomicity_counterexample :
    (Wikid.login tauLoginFailed wkPublic []).1.ok = false ∧
    wkPublic.tokenCache = [] ∧
    wkPublic.cookies = [] ∧
    (Wikid.login tauLoginFailed wkPublic []).2.1.tokenCache =
      [("login", "LT"), ("csrf", "CT")] ∧
    (Wikid.login tauLoginFailed wkPublic []).2.1.cookies = ["s=1"] ∧
    (Wikid.login tauNoCookies wkPublic []).1.ok = true ∧
    (Wikid.login tauNoCookies wkPublic []).2.1.cookies = [] := by
  decide

/-- C2 amended: `login()` is atomic only up to its first sub-call — when
credential validation fails the state and trace are exactly unchanged and
the validation error is surfaced in the result; and whenever `login()`
reports success, the login and csrf tokens are cached. -/
theorem c2_login_atomicity_amended (τ : Transport) (st : Wikid.Wk)
    (tr : List Req) :
    (∀ e, Wikid.validate st OVal.nullV = Except.error e →
      Wikid.login τ st tr = ({ ok := false, error := some e }, st, tr)) ∧
    ((Wikid.login τ st tr).1.ok = true →
      mapHas (Wikid.login τ st tr).2.1.tokenCache "login" = true ∧
      mapHas (Wikid.login τ st tr).2.1.tokenCache "csrf" = true) :=
  ⟨fun e he => Wikid.login_validate_err τ st tr e he,
   fun h => Wikid.login_ok_caches τ st tr h⟩

/-- Witness for the C2 amended theorem at concrete inputs. -/
theorem c2_login_atomicity_amended_witness :
    Wikid.validate (Wikid.mkWikid none (some "Bot") (some "pw") false)
      OVal.nullV = Except.error (JsError.assertFail "Missing baseUrl.") ∧
    Wikid.login tauDown (Wikid.mkWikid none (some "Bot") (some "pw") false) [] =
      ({ ok := false, error := some (JsError.assertFail "Missing baseUrl.") },
        Wikid.mkWikid none (some "Bot") (some "pw") false, []) ∧
    (Wikid.login tauNoCookies wkPublic []).1.ok = true ∧
    mapHas (Wikid.login tauNoCookies wkPublic []).2.1.tokenCache "login" = true ∧
    mapHas (Wikid.login tauNoCookies wkPublic []).2.1.tokenCache "csrf" = true := by
  have h1 := (c2_login_atomicity_amended tauDown
    (Wikid.mkWikid none (some "Bot") (some "pw") false) []).1
    (JsError.assertFail "Missing baseUrl.") (by rfl)
  have h2 := (c2_login_atomicity_amended tauNoCookies wkPublic []).2 (by decide)
  exact ⟨by rfl, h1, by decide, h2.1, h2.2⟩

/-- C4 counterexample: in the shipped class `rollback` (listed among the
auth/moderation actions of the claim) resolves to `"csrf"` rather than its
own name, and an unlisted action such as `purge` resolves to its own name
rather than `"csrf"`; in the Map-based class `patrol` resolves to
`"csrf"`, not `"patrol"`. -/
theorem c4_action_classification_counterexample :
    Wikid.tokenTypeFor (some "rollback") = some "csrf" ∧
    Wikid.tokenTypeFor (some "purge") = some "purge" ∧
    WikidB.tokenTypeFor (some "patrol") = "csrf" := by
  decide

/-- C4 amended: `edit` maps to `csrf` and (in the shipped class) `patrol`
to `patrol`; but the real policy of the shipped class is the inverse of
the claim — its fixed list maps to `csrf` and every other action maps to
its own name — while in the Map-based class the intended non-csrf set is
built from `new Set("createaccount", ...)` and therefore holds only
single characters, so every real action name resolves to `csrf`. -/
theorem c4_action_classification_amended :
    Wikid.tokenTypeFor (some "edit") = some "csrf" ∧
    Wikid.tokenTypeFor (some "patrol") = some "patrol" ∧
    (∀ a, Wikid.csrfActions.contains a = true →
      Wikid.tokenTypeFor (some a) = some "csrf") ∧
    (∀ a, Wikid.csrfActions.contains a = false →
      Wikid.tokenTypeFor (some a) = some a) ∧
    (∀ a : String, 2 ≤ a.length → WikidB.tokenTypeFor (some a) = "csrf") := by
  refine ⟨by decide, by decide, ?_, ?_, ?_⟩
  · intro a ha
    unfold Wikid.tokenTypeFor
    dsimp only
    rw [ha]
    rfl
  · intro a ha
    unfold Wikid.tokenTypeFor
    dsimp only
    rw [ha]
    rfl
  · intro a ha
    have hc : WikidB.notCrsfActions.contains a = false := by
      cases hx : WikidB.notCrsfActions.contains a
      · rfl
      · exfalso
        have hmem : a ∈ WikidB.notCrsfActions := by simpa using hx
        have hlen : a.length = 1 := by
          have e : WikidB.notCrsfActions =
              ["c", "r", "e", "a", "t", "o", "u", "n"] := by decide
          rw [e] at hmem
          simp only [List.mem_cons, List.not_mem_nil, or_false] at hmem
          rcases hmem with rfl | rfl | rfl | rfl | rfl | rfl | rfl | rfl <;> rfl
        omega
    unfold WikidB.tokenTypeFor
    dsimp only
    rw [hc]
    rfl

/-- Witness for the C4 amended theorem at concrete inputs. -/
theorem c4_action_classification_amended_witness :
    (Wikid.csrfActions.contains "upload" = true ∧
      Wikid.tokenTypeFor (some "upload") = some "csrf") ∧
    (Wikid.csrfActions.contains "createaccount" = false ∧
      Wikid.tokenTypeFor (some "createaccount") = some "createaccount") ∧
    (2 ≤ String.length "watch" ∧ WikidB.tokenTypeFor (some "watch") = "csrf") := by
  refine ⟨⟨by decide, c4_action_classification_amended.2.2.1 "upload" (by decide)⟩,
    ⟨by decide, c4_action_classification_amended.2.2.2.1 "createaccount" (by decide)⟩,
    ⟨by decide, c4_action_classification_amended.2.2.2.2 "watch" (by decide)⟩⟩

/-- C5 counterexample: in the shipped class, applying `"a=1; Path=/"` and
then `"a=; Path=/"` does not delete key `a` — the jar ends as the single
literal entry `"a="` and the next request would carry the Cookie header
`"a="`, so an empty cookie value is stored, not treated as a deletion
directive. -/
theorem c5_cookie_laws_counterexample :
    Wikid.updateCookies (Wikid.updateCookies [] (some "a=1; Path=/"))
      (some "a=; Path=/") = ["a="] ∧
    Wikid.getHeaders { wkPublic with cookies := ["a="] } = some "a=" := by
  decide

/-- C5 amended: both cookie laws hold for the Map-based jar, for every
starting jar state; in the shipped jar the last-write law holds (the jar
is wholesale-replaced by the latest response), but the deletion law fails
(see the counterexample). -/
theorem c5_cookie_laws_amended :
    (∀ m, mapHas (WikidB.updateCookies (WikidB.updateCookies m
      (WikidB.CookieArg.strArg "a=1; Path=/"))
      (WikidB.CookieArg.strArg "a=; Path=/")) "a" = false) ∧
    (∀ m, mapGet? (WikidB.updateCookies (WikidB.updateCookies m
      (WikidB.CookieArg.strArg "b=1"))
      (WikidB.CookieArg.strArg "b=2")) "b" = some "2") ∧
    (∀ l, Wikid.updateCookies (Wikid.updateCookies l (some "b=1"))
      (some "b=2") = ["b=2"]) := by
  refine ⟨fun m => ?_, fun m => ?_, fun l => rfl⟩
  · have h : WikidB.updateCookies (WikidB.updateCookies m
        (WikidB.CookieArg.strArg "a=1; Path=/"))
        (WikidB.CookieArg.strArg "a=; Path=/") =
        mapDelete (mapSet m "a" "1") "a" := rfl
    rw [h]
    exact mapHas_mapDelete_self _ _
  · have h : WikidB.updateCookies (WikidB.updateCookies m
        (WikidB.CookieArg.strArg "b=1"))
        (WikidB.CookieArg.strArg "b=2") =
        mapSet (mapSet m "b" "1") "b" "2" := rfl
    rw [h]
    exact mapGet?_mapSet_self _ _ _

/-- C6 counterexample: in the shipped class the frame property fails —
a response that only sets cookie `a` wipes the unrelated jar entry
`"x=9"`, although the name `x` occurs nowhere in the Set-Cookie value. -/
theorem c6_cookie_frame_counterexample :
    Wikid.updateCookies ["x=9"] (some "a=1") = ["a=1"] := by
  decide

/-- C6 amended: the Map-based jar satisfies the frame property — a jar
key that is not the parsed leading name of any applied raw Set-Cookie
value keeps exactly its previous value, for the array form, the non-empty
string form and the null form of the update argument. -/
theorem c6_cookie_frame_amended (jar : List (String × String)) (k : String) :
    (∀ hdrs : List String, (∀ s ∈ hdrs, WikidB.cookieName s ≠ k) →
      mapGet? (WikidB.updateCookies jar (WikidB.CookieArg.arrArg hdrs)) k =
        mapGet? jar k) ∧
    (∀ s : String, s ≠ "" → WikidB.cookieName s ≠ k →
      mapGet? (WikidB.updateCookies jar (WikidB.CookieArg.strArg s)) k =
        mapGet? jar k) ∧
    mapGet? (WikidB.updateCookies jar WikidB.CookieArg.nullArg) k =
      mapGet? jar k := by
  refine ⟨?_, ?_, rfl⟩
  · intro hdrs hne
    exact WikidB.foldl_applyCookie_frame hdrs jar k hne
  · intro s hs hne
    unfold WikidB.updateCookies
    dsimp only
    rw [if_neg hs]
    exact WikidB.applyCookie_frame jar s k hne

/-- Witness for the C6 amended theorem at concrete inputs. -/
theorem c6_cookie_frame_amended_witness :
    (∀ s ∈ ["a=1; Path=/"], WikidB.cookieName s ≠ "x") ∧
    mapGet? (WikidB.updateCookies [("x", "9")]
      (WikidB.CookieArg.arrArg ["a=1; Path=/"])) "x" =
      mapGet? [("x", "9")] "x" := by
  have h := (c6_cookie_frame_amended [("x", "9")] "x").1 ["a=1; Path=/"]
    (by decide)
  exact ⟨by decide, h⟩

/-- C7: the token-cache hit law for both classes — when the resolved type
is cached, `#getToken` returns the cached value with the state and the
request trace unchanged (no transport invocation at all), and whenever
`#getToken` succeeds the returned value is cached under the resolved type,
so a subsequent call is such a hit. -/
theorem c7_token_cache_hit_law (τ : Transport) :
    (∀ (st : Wikid.Wk) (tr : List Req) (t : Option String) (uo : Bool)
      (v : String), mapGet? st.tokenCache (t.getD "csrf") = some v →
      Wikid.getToken τ st tr t uo = (Except.ok v, st, tr)) ∧
    (∀ (st st' : Wikid.Wk) (tr tr' : List Req) (t : Option String)
      (uo : Bool) (v : String),
      Wikid.getToken τ st tr t uo = (Except.ok v, st', tr') →
      mapGet? st'.tokenCache (t.getD "csrf") = some v) ∧
    (∀ (st : WikidB.Wk) (tr : List Req) (t : Option String) (uo : Bool)
      (v : String), mapGet? st.tokenCache (WikidB.resolveType t) = some v →
      WikidB.getToken τ st tr t uo = (Except.ok v, st, tr)) ∧
    (∀ (st st' : WikidB.Wk) (tr tr' : List Req) (t : Option String)
      (uo : Bool) (v : String),
      WikidB.getToken τ st tr t uo = (Except.ok v, st', tr') →
      mapGet? st'.tokenCache (WikidB.resolveType t) = some v) :=
  ⟨fun st tr t uo v h => Wikid.getToken_cacheHit τ st tr t uo v h,
   fun st st' tr tr' t uo v h =>
     (Wikid.getToken_ok_spec τ st tr t uo v st' tr' h).1,
   fun st tr t uo v h => WikidB.getTokenB_cacheHit τ st tr t uo v h,
   fun st st' tr tr' t uo v h =>
     (WikidB.getTokenB_ok_spec τ st tr t uo v st' tr' h).1⟩

/-- Witness for the C7 theorem: with `"csrf"` cached, `#getToken` returns
the cached token against a dead transport, leaving state and trace
untouched. -/
theorem c7_token_cache_hit_law_witness :
    mapGet? ({ wkPublic with tokenCache := [("csrf", "CT")] } : Wikid.Wk).tokenCache
      ((some "csrf").getD "csrf") = some "CT" ∧
    Wikid.getToken tauDown { wkPublic with tokenCache := [("csrf", "CT")] }
      [] (some "csrf") false =
      (Except.ok "CT", { wkPublic with tokenCache := [("csrf", "CT")] }, []) := by
  have h := (c7_token_cache_hit_law tauDown).1
    { wkPublic with tokenCache := [("csrf", "CT")] } [] (some "csrf") false
    "CT" (by decide)
  exact ⟨by decide, h⟩

/-- C8: constructing an engine with one credential field missing or empty
makes `login()` return an `{ok: false}` result whose error message names
exactly that field, with state and trace untouched; the embedding of
`login` is a total function into a result value, reflecting that the
source catches every failure internally. -/
theorem c8_login_credential_validation (τ : Transport)
    (b u p : Option String) (priv : Bool) :
    (optTruthy b = false →
      Wikid.login τ (Wikid.mkWikid b u p priv) [] =
        ({ ok := false, error := some (JsError.assertFail "Missing baseUrl.") },
          Wikid.mkWikid b u p priv, [])) ∧
    (optTruthy b = true → optTruthy u = false →
      Wikid.login τ (Wikid.mkWikid b u p priv) [] =
        ({ ok := false,
           error := some (JsError.assertFail "Missing botUsername.") },
          Wikid.mkWikid b u p priv, [])) ∧
    (optTruthy b = true → optTruthy u = true → optTruthy p = false →
      Wikid.login τ (Wikid.mkWikid b u p priv) [] =
        ({ ok := false,
           error := some (JsError.assertFail "Missing botPassword.") },
          Wikid.mkWikid b u p priv, [])) := by
  refine ⟨fun hb => ?_, fun hb hu => ?_, fun hb hu hp => ?_⟩
  all_goals
    apply Wikid.login_validate_err
    unfold Wikid.validate Wikid.mkWikid
    simp only [Bind.bind, Except.bind, assertB, hb]
  · rfl
  · simp only [hu]
    rfl
  · simp only [hu, hp]
    rfl

/-- C9: a `post` whose payload is not a plain object fails in both classes
before any transport call — the result is an error, the state is returned
exactly as it was and the request trace is unchanged; when the
configuration guard passes, the error is precisely the plain-object
validation failure. -/
theorem c9_post_payload_validation (τ : Transport) (st : Wikid.Wk)
    (stB : WikidB.Wk) (tr trB : List Req) (path pathB : String) (d : JsVal)
    (hd : isPlainObject d = false) :
    (∃ e, Wikid.post τ st tr path d = (Except.error e, st, tr)) ∧
    (Wikid.validate st OVal.nullV = Except.ok () →
      Wikid.post τ st tr path d =
        (Except.error (JsError.assertFail "Invalid data format. Use plain object."),
          st, tr)) ∧
    (∃ e, WikidB.post τ stB trB pathB d = (Except.error e, stB, trB)) ∧
    (WikidB.validate stB OVal.nullV = Except.ok () →
      WikidB.post τ stB trB pathB d =
        (Except.error (JsError.assertFail "Invalid data format. Use plain object."),
          stB, trB)) := by
  refine ⟨?_, fun hv => ?_, ?_, fun hv => ?_⟩
  · cases hv : Wikid.validate st OVal.nullV with
    | error e =>
      refine ⟨e, ?_⟩
      unfold Wikid.post
      rw [hv]
    | ok u =>
      refine ⟨JsError.assertFail "Invalid data format. Use plain object.", ?_⟩
      unfold Wikid.post
      rw [hv]
      dsimp only
      rw [hd]
      rfl
  · unfold Wikid.post
    rw [hv]
    dsimp only
    rw [hd]
    rfl
  · cases hv : WikidB.validate stB OVal.nullV with
    | error e =>
      refine ⟨e, ?_⟩
      unfold WikidB.post
      rw [hv]
    | ok u =>
      refine ⟨JsError.assertFail "Invalid data format. Use plain object.", ?_⟩
      unfold WikidB.post
      rw [hv]
      dsimp only
      rw [hd]
      rfl
  · unfold WikidB.post
    rw [hv]
    dsimp only
    rw [hd]
    rfl

/-- Witness for the C9 theorem: an array payload is rejected by both
classes before any network call, against a dead transport. -/
theorem c9_post_payload_validation_witness :
    isPlainObject (JsVal.arr []) = false ∧
    Wikid.post tauDown wkPublic [] "api.php" (JsVal.arr []) =
      (Except.error (JsError.assertFail "Invalid data format. Use plain object."),
        wkPublic, []) ∧
    WikidB.post tauDown wkPublicB [] "api.php" (JsVal.arr []) =
      (Except.error (JsError.assertFail "Invalid data format. Use plain object."),
        wkPublicB, []) := by
  have h := c9_post_payload_validation tauDown wkPublic wkPublicB [] []
    "api.php" "api.php" (JsVal.arr []) (by decide)
  exact ⟨by decide, h.2.1 (by rfl), h.2.2.2 (by rfl)⟩

/-- C10: when `#getToken` fails, in either class, the token cache is left
exactly as it was and the raised error is a `Sass.new` wrap of the
underlying failure; and on success the fetched value is cached under the
resolved type — the cache write happens only after successful
extraction. -/
theorem c10_token_fetch_failure_cache_unchanged (τ : Transport)
    (st : Wikid.Wk) (stB : WikidB.Wk) (tr trB : List Req)
    (t tB : Option String) (uo uoB : Bool) :
    (∀ e st' tr', Wikid.getToken τ st tr t uo = (Except.error e, st', tr') →
      st'.tokenCache = st.tokenCache ∧ ∃ m c, e = JsError.sass m c) ∧
    (∀ v st' tr', Wikid.getToken τ st tr t uo = (Except.ok v, st', tr') →
      mapGet? st'.tokenCache (t.getD "csrf") = some v) ∧
    (∀ e st' tr', WikidB.getToken τ stB trB tB uoB = (Except.error e, st', tr') →
      st'.tokenCache = stB.tokenCache ∧ ∃ m c, e = JsError.sass m c) ∧
    (∀ v st' tr', WikidB.getToken τ stB trB tB uoB = (Except.ok v, st', tr') →
      mapGet? st'.tokenCache (WikidB.resolveType tB) = some v) :=
  ⟨fun e st' tr' h => Wikid.getToken_err_spec τ st tr t uo e st' tr' h,
   fun v st' tr' h => (Wikid.getToken_ok_spec τ st tr t uo v st' tr' h).1,
   fun e st' tr' h => WikidB.getTokenB_err_spec τ stB trB tB uoB e st' tr' h,
   fun v st' tr' h => (WikidB.getTokenB_ok_spec τ stB trB tB uoB v st' tr' h).1⟩

/-- Witness for the C10 theorem: against a dead transport the csrf fetch
fails with a wrapped connection error and the cache entry set stays
empty. -/
theorem c10_token_fetch_failure_witness :
    Wikid.getToken tauDown wkPublic [] (some "csrf") false =
      (Except.error (JsError.sass "Error fetching csrf token."
          (JsError.network "ECONNREFUSED")),
        { wkPublic with overrideLoginCheck := OVal.nullV },
        [{ method := "GET", path := "api.php",
           queryParams := [("action", "query"), ("meta", "tokens"),
             ("format", "json")], body := [], cookieHeader := none }]) ∧
    ({ wkPublic with overrideLoginCheck := OVal.nullV } : Wikid.Wk).tokenCache =
      wkPublic.tokenCache ∧
    ∃ m c, JsError.sass "Error fetching csrf token."
      (JsError.network "ECONNREFUSED") = JsError.sass m c := by
  have heq : Wikid.getToken tauDown wkPublic [] (some "csrf") false =
      (Except.error (JsError.sass "Error fetching csrf token."
          (JsError.network "ECONNREFUSED")),
        { wkPublic with overrideLoginCheck := OVal.nullV },
        [{ method := "GET", path := "api.php",
           queryParams := [("action", "query"), ("meta", "tokens"),
             ("format", "json")], body := [], cookieHeader := none }]) := by
    rfl
  have h := (c10_token_fetch_failure_cache_unchanged tauDown wkPublic
    wkPublicB [] [] (some "csrf") (some "csrf") false false).1 _ _ _ heq
  exact ⟨heq, h.1, h.2⟩

/-- Witness for the C8 theorem: a missing `baseUrl`, an empty
`botUsername` and a missing `botPassword`, each alone, produce the
matching error result against a dead transport. -/
theorem c8_login_credential_validation_witness :
    optTruthy (none : Option String) = false ∧
    Wikid.login tauDown (Wikid.mkWikid none (some "Bot") (some "pw") false) [] =
      ({ ok := false, error := some (JsError.assertFail "Missing baseUrl.") },
        Wikid.mkWikid none (some "Bot") (some "pw") false, []) ∧
    optTruthy (some "") = false ∧
    Wikid.login tauDown
      (Wikid.mkWikid (some "https://wiki.example") (some "") (some "pw") false) [] =
      ({ ok := false, error := some (JsError.assertFail "Missing botUsername.") },
        Wikid.mkWikid (some "https://wiki.example") (some "") (some "pw") false, []) ∧
    Wikid.login tauDown
      (Wikid.mkWikid (some "https://wiki.example") (some "Bot") none true) [] =
      ({ ok := false, error := some (JsError.assertFail "Missing botPassword.") },
        Wikid.mkWikid (some "https://wiki.example") (some "Bot") none true, []) := by
  have h1 := (c8_login_credential_validation tauDown none (some "Bot")
    (some "pw") false).1 (by decide)
  have h2 := (c8_login_credential_validation tauDown (some "https://wiki.example")
    (some "") (some "pw") false).2.1 (by decide) (by decide)
  have h3 := (c8_login_credential_validation tauDown (some "https://wiki.example")
    (some "Bot") none true).2.2 (by decide) (by decide) (by decide)
  exact ⟨by decide, h1, by decide, h2, h3⟩
